import Mathlib

/-
Shallow embedding of src/MQTTHandlers.py.

The module defines three classes, MQTTPublish, MQTTPublish_TLS and
MQTTSubscribe, each a thin orchestration shim over an external MQTT client
library.  Every method is translated into a Lean function that returns the
list of observable events the method performs, in program order: log calls,
console prints, transport calls (connect, publish, subscribe, disconnect,
TLS setup), thread sleeps, elapsed-time checks and process exits.

External behaviour is passed in as parameters:
  - rc        : the result code the transport connect call returns;
  - pubFault  : whether the transport publish call raises on a given
                iteration of the publish loop;
  - tolerant  : whether the transport disconnect call tolerates being
                called when the connection is already closed (if not, a
                duplicate close raises);
  - fuel      : an upper bound on loop iterations, since the publish loop
                is a while-true loop in the source (fuel exhaustion is
                reported as a distinct outcome, never as termination).

Time is modelled as a simulated clock in whole seconds: the current time is
threaded through the publish loop and each sleep advances it by five
seconds, matching the fixed five second sleep in the source.
-/

inductive Event where
  | logDebug (msg : String)
  | logInfo (msg : String)
  | logWarning (msg : String)
  | logError (msg : String)
  | printLine (msg : String)
  | transportConnect (host : String) (port : Nat) (keepalive : Nat)
  | transportPublish (topic : String) (payload : String) (qos : Nat)
  | transportSubscribe (topic : String) (qosArg : Option Nat)
  | transportDisconnect
  | tlsSet (caCerts : String) (certfile : String) (keyfile : String)
  | tlsInsecureSet (b : Bool)
  | sleep (secs : Nat)
  | timeCheck (elapsed : Nat)
  | sysExit (code : Int)
  deriving DecidableEq

def Event.isInfo : Event → Bool
  | Event.logInfo _ => true
  | _ => false

def Event.isError : Event → Bool
  | Event.logError _ => true
  | _ => false

def Event.isWarning : Event → Bool
  | Event.logWarning _ => true
  | _ => false

def Event.isExit : Event → Bool
  | Event.sysExit _ => true
  | _ => false

def Event.isPublish : Event → Bool
  | Event.transportPublish _ _ _ => true
  | _ => false

def Event.isSubscribeCall : Event → Bool
  | Event.transportSubscribe _ _ => true
  | _ => false

def Event.isDisconnect : Event → Bool
  | Event.transportDisconnect => true
  | _ => false

def Event.isSleep : Event → Bool
  | Event.sleep _ => true
  | _ => false

def Event.isTimeCheck : Event → Bool
  | Event.timeCheck _ => true
  | _ => false

/-
Outcome of the publish loop: normal break via the elapsed-time branch, an
exception escaping the loop (an unhandled raise inside the except block),
or fuel exhaustion while the while-true loop is still running.
-/
inductive RunOutcome where
  | normal
  | unhandled
  | fuelOut
  deriving DecidableEq

def RunOutcome.isUnhandledB : RunOutcome → Bool
  | RunOutcome.unhandled => true
  | _ => false

/-
Configuration provider.  In the source every field is obtained through a
getter of the JSON_Parser collaborator; here the provider is a record of
the values those getters return.
-/
structure JSON_Parser where
  mqtt_host : String
  mqtt_port : Nat
  mqtt_timeout : Nat
  msg_topic : String
  msg_payload : String
  mqtt_qos : Nat
  tlsparams_cacerts : String
  tlsparams_certfile : String
  tlsparams_keyfile : String
  logging_logdir : String

/- Publisher state, as set up by the constructor of class MQTTPublish. -/
structure MQTTPublish where
  host : String
  port : Nat
  timeout : Nat
  topic : String
  message : String
  qos : Nat
  start_time : Nat

/-
Constructor of MQTTPublish: reads host, port, timeout, topic, payload and
qos from the configuration provider and records the current time as
start_time.
-/
def MQTTPublish.init (cfg : JSON_Parser) (now : Nat) : MQTTPublish :=
  { host := cfg.mqtt_host
    port := cfg.mqtt_port
    timeout := cfg.mqtt_timeout
    topic := cfg.msg_topic
    message := cfg.msg_payload
    qos := cfg.mqtt_qos
    start_time := now }

/-
MQTTPublish.connect: calls the transport connect with the configured host,
port and keepalive, then branches on the result code.  Nonzero: log one
error and exit the process with status -1.  Zero: log one info event.
-/
def MQTTPublish.connect (self : MQTTPublish) (rc : Nat) : List Event :=
  Event.transportConnect self.host self.port self.timeout ::
    (if rc ≠ 0 then
      [Event.logError "PUB : Could not connect to client!", Event.sysExit (-1)]
    else
      [Event.logInfo "PUB : Connection to client established!"])

/- MQTTPublish.publish: one transport publish with topic, payload and qos. -/
def MQTTPublish.publish (self : MQTTPublish) : List Event :=
  [Event.transportPublish self.topic self.message self.qos]

/-
MQTTPublish.disconnect: calls the transport disconnect and then logs an
info event.  The transport call is modelled with the connection state and
the tolerance flag: closing an open connection succeeds; closing an
already closed connection succeeds when the transport is tolerant and
raises otherwise.  The result is the events performed, a flag telling
whether the transport call raised (in which case the log line is never
reached), and the connection state afterwards.
-/
def MQTTPublish.disconnect (conn tolerant : Bool) : List Event × Bool × Bool :=
  if conn then
    ([Event.transportDisconnect, Event.logInfo "PUB : Disconnected from network!"],
     false, false)
  else if tolerant then
    ([Event.transportDisconnect, Event.logInfo "PUB : Disconnected from network!"],
     false, false)
  else
    ([], true, false)

/-
MQTTPublish.run: the while-true publish loop.  Each iteration, inside a
try block: print the exit prompt, log a debug line, publish, log a debug
line, sleep five seconds, then if the elapsed time since start_time is at
least 200 seconds, log a warning, disconnect and break.  The bare except
block logs a warning and disconnects; note that the source has no break
statement in the except block, so after a handled fault the loop
continues with the next iteration.  A raise inside the except block (a
disconnect the transport refuses) escapes the loop as unhandled; a raise
of the disconnect in the timed branch is caught by the same except block.
Arguments after the fault model: fuel, current simulated time, iteration
index, connection state.
-/
def MQTTPublish.run (self : MQTTPublish) (tolerant : Bool) (pubFault : Nat → Bool) :
    Nat → Nat → Nat → Bool → List Event × RunOutcome
  | 0, _, _, _ => ([], RunOutcome.fuelOut)
  | fuel + 1, t, i, conn =>
    let pre : List Event :=
      [Event.printLine "Press CTRL+C to exit....",
       Event.logDebug "PUB : Running the publish loop"]
    if pubFault i then
      -- publish raised; except: warn, disconnect, and fall through to the
      -- next iteration (no break in the source)
      match MQTTPublish.disconnect conn tolerant with
      | (devs, true, _) =>
        (pre ++ Event.logWarning "PUB : Disconnecting from broker!" :: devs,
         RunOutcome.unhandled)
      | (devs, false, c2) =>
        let rest := MQTTPublish.run self tolerant pubFault fuel t (i + 1) c2
        (pre ++ Event.logWarning "PUB : Disconnecting from broker!" :: devs ++ rest.1,
         rest.2)
    else
      let t2 := t + 5
      let body : List Event :=
        pre ++ self.publish ++
          [Event.logDebug "PUB : Published message to network",
           Event.sleep 5,
           Event.timeCheck (t2 - self.start_time)]
      if t2 - self.start_time ≥ 200 then
        match MQTTPublish.disconnect conn tolerant with
        | (devs, false, _) =>
          (body ++ Event.logWarning "PUB : Disconnecting from broker!" :: devs,
           RunOutcome.normal)
        | (devs, true, c2) =>
          -- the disconnect in the timed branch raised before the break;
          -- the except block runs: warn and disconnect a second time
          match MQTTPublish.disconnect c2 tolerant with
          | (devs2, true, _) =>
            (body ++ Event.logWarning "PUB : Disconnecting from broker!" :: devs
               ++ Event.logWarning "PUB : Disconnecting from broker!" :: devs2,
             RunOutcome.unhandled)
          | (devs2, false, c3) =>
            let rest := MQTTPublish.run self tolerant pubFault fuel t2 (i + 1) c3
            (body ++ Event.logWarning "PUB : Disconnecting from broker!" :: devs
               ++ Event.logWarning "PUB : Disconnecting from broker!" :: devs2 ++ rest.1,
             rest.2)
      else
        let rest := MQTTPublish.run self tolerant pubFault fuel t2 (i + 1) conn
        (body ++ rest.1, rest.2)

/-
MQTTPublish.start_loop: connect then run.  A nonzero connect result exits
the process inside connect, so run is never entered in that case.
-/
def MQTTPublish.start_loop (self : MQTTPublish) (rc : Nat) (tolerant : Bool)
    (pubFault : Nat → Bool) (fuel t : Nat) : List Event :=
  self.connect rc ++
    (if rc ≠ 0 then [] else (self.run tolerant pubFault fuel t 0 true).1)

/-
TLS publisher state, as set up by the constructor of class
MQTTPublish_TLS: the same fields as MQTTPublish plus the three TLS file
paths.  The port field is read from the configuration like the others.
-/
structure MQTTPublish_TLS where
  host : String
  port : Nat
  timeout : Nat
  topic : String
  message : String
  qos : Nat
  ca_certs : String
  cafile : String
  keyfile : String
  start_time : Nat

def MQTTPublish_TLS.init (cfg : JSON_Parser) (now : Nat) : MQTTPublish_TLS :=
  { host := cfg.mqtt_host
    port := cfg.mqtt_port
    timeout := cfg.mqtt_timeout
    topic := cfg.msg_topic
    message := cfg.msg_payload
    qos := cfg.mqtt_qos
    ca_certs := cfg.tlsparams_cacerts
    cafile := cfg.tlsparams_certfile
    keyfile := cfg.tlsparams_keyfile
    start_time := now }

/-
MQTTPublish_TLS.tls_config: installs the CA certificates path, the
certificate file and the key file into the transport TLS context, then
enables insecure mode (verification disabled).
-/
def MQTTPublish_TLS.tls_config (self : MQTTPublish_TLS) : List Event :=
  [Event.tlsSet self.ca_certs self.cafile self.keyfile,
   Event.tlsInsecureSet true]

/-
MQTTPublish_TLS.connect: identical to MQTTPublish.connect except that the
port argument of the transport connect call is the literal 8883; the
configured port field of self is not consulted here.
-/
def MQTTPublish_TLS.connect (self : MQTTPublish_TLS) (rc : Nat) : List Event :=
  Event.transportConnect self.host 8883 self.timeout ::
    (if rc ≠ 0 then
      [Event.logError "PUB : Could not connect to client!", Event.sysExit (-1)]
    else
      [Event.logInfo "PUB : Connection to client established!"])

def MQTTPublish_TLS.publish (self : MQTTPublish_TLS) : List Event :=
  [Event.transportPublish self.topic self.message self.qos]

/-
MQTTPublish_TLS.run: textually the same loop as MQTTPublish.run in the
source, duplicated here as it is duplicated there.
-/
def MQTTPublish_TLS.run (self : MQTTPublish_TLS) (tolerant : Bool) (pubFault : Nat → Bool) :
    Nat → Nat → Nat → Bool → List Event × RunOutcome
  | 0, _, _, _ => ([], RunOutcome.fuelOut)
  | fuel + 1, t, i, conn =>
    let pre : List Event :=
      [Event.printLine "Press CTRL+C to exit....",
       Event.logDebug "PUB : Running the publish loop"]
    if pubFault i then
      match MQTTPublish.disconnect conn tolerant with
      | (devs, true, _) =>
        (pre ++ Event.logWarning "PUB : Disconnecting from broker!" :: devs,
         RunOutcome.unhandled)
      | (devs, false, c2) =>
        let rest := MQTTPublish_TLS.run self tolerant pubFault fuel t (i + 1) c2
        (pre ++ Event.logWarning "PUB : Disconnecting from broker!" :: devs ++ rest.1,
         rest.2)
    else
      let t2 := t + 5
      let body : List Event :=
        pre ++ self.publish ++
          [Event.logDebug "PUB : Published message to network",
           Event.sleep 5,
           Event.timeCheck (t2 - self.start_time)]
      if t2 - self.start_time ≥ 200 then
        match MQTTPublish.disconnect conn tolerant with
        | (devs, false, _) =>
          (body ++ Event.logWarning "PUB : Disconnecting from broker!" :: devs,
           RunOutcome.normal)
        | (devs, true, c2) =>
          match MQTTPublish.disconnect c2 tolerant with
          | (devs2, true, _) =>
            (body ++ Event.logWarning "PUB : Disconnecting from broker!" :: devs
               ++ Event.logWarning "PUB : Disconnecting from broker!" :: devs2,
             RunOutcome.unhandled)
          | (devs2, false, c3) =>
            let rest := MQTTPublish_TLS.run self tolerant pubFault fuel t2 (i + 1) c3
            (body ++ Event.logWarning "PUB : Disconnecting from broker!" :: devs
               ++ Event.logWarning "PUB : Disconnecting from broker!" :: devs2 ++ rest.1,
             rest.2)
      else
        let rest := MQTTPublish_TLS.run self tolerant pubFault fuel t2 (i + 1) conn
        (body ++ rest.1, rest.2)

/-
MQTTPublish_TLS.start_loop: tls_config, then connect, then run.  The TLS
configuration is performed unconditionally before connect; a nonzero
connect result exits the process, so run is never entered in that case.
-/
def MQTTPublish_TLS.start_loop (self : MQTTPublish_TLS) (rc : Nat) (tolerant : Bool)
    (pubFault : Nat → Bool) (fuel t : Nat) : List Event :=
  self.tls_config ++ self.connect rc ++
    (if rc ≠ 0 then [] else (self.run tolerant pubFault fuel t 0 true).1)

/-
Strict UTF-8 decoding, modelling the Python bytes decode method with its
default encoding: the decoder accepts exactly the well-formed byte
sequences of RFC 3629 (no overlong forms, no surrogate code points, no
code points above U+10FFFF, no truncated sequences) and returns the list
of decoded code points; any other input raises, modelled as none.
-/

def isCont (c : Nat) : Prop := 0x80 ≤ c ∧ c ≤ 0xBF

instance (c : Nat) : Decidable (isCont c) := by
  unfold isCont; infer_instance

def lead3Ok (b c : Nat) : Prop :=
  (b = 0xE0 ∧ 0xA0 ≤ c ∧ c ≤ 0xBF) ∨
  (0xE1 ≤ b ∧ b ≤ 0xEC ∧ isCont c) ∨
  (b = 0xED ∧ 0x80 ≤ c ∧ c ≤ 0x9F) ∨
  (0xEE ≤ b ∧ b ≤ 0xEF ∧ isCont c)

instance (b c : Nat) : Decidable (lead3Ok b c) := by
  unfold lead3Ok; infer_instance

def lead4Ok (b c : Nat) : Prop :=
  (b = 0xF0 ∧ 0x90 ≤ c ∧ c ≤ 0xBF) ∨
  (0xF1 ≤ b ∧ b ≤ 0xF3 ∧ isCont c) ∨
  (b = 0xF4 ∧ 0x80 ≤ c ∧ c ≤ 0x8F)

instance (b c : Nat) : Decidable (lead4Ok b c) := by
  unfold lead4Ok; infer_instance

/-
One decoding step of the strict decoder: given the lead byte and the
remaining bytes, return the decoded code point and the bytes left over,
or none when the head of the input is not a well-formed sequence.
-/
def utf8Step (b : Nat) (l : List Nat) : Option (Nat × List Nat) :=
  if b < 0x80 then some (b, l)
  else if 0xC2 ≤ b ∧ b ≤ 0xDF then
    match l with
    | c :: l2 =>
      if isCont c then some ((b - 0xC0) * 0x40 + (c - 0x80), l2) else none
    | [] => none
  else if 0xE0 ≤ b ∧ b ≤ 0xEF then
    match l with
    | c :: d :: l3 =>
      if lead3Ok b c ∧ isCont d then
        some ((b - 0xE0) * 0x1000 + (c - 0x80) * 0x40 + (d - 0x80), l3)
      else none
    | _ => none
  else if 0xF0 ≤ b ∧ b ≤ 0xF4 then
    match l with
    | c :: d :: e :: l4 =>
      if lead4Ok b c ∧ isCont d ∧ isCont e then
        some ((b - 0xF0) * 0x40000 + (c - 0x80) * 0x1000 + (d - 0x80) * 0x40 + (e - 0x80), l4)
      else none
    | _ => none
  else none

/-
Driver of the strict decoder: decode one scalar value at a time.  The
fuel argument only serves Lean as a structural recursion handle; each
step consumes at least the lead byte, so a fuel equal to the input length
is always enough (utf8DecodeGo_fuel below), and the decoder proper passes
exactly that.
-/
def utf8DecodeGo : Nat → List Nat → Option (List Nat)
  | _, [] => some []
  | 0, _ :: _ => none
  | fuel + 1, b :: rest =>
    match utf8Step b rest with
    | some (cp, rest2) => (utf8DecodeGo fuel rest2).map fun cps => cp :: cps
    | none => none

def utf8Decode (l : List Nat) : Option (List Nat) :=
  utf8DecodeGo l.length l

/-
Well-formed UTF-8 byte sequences, written as an inductive predicate whose
constructors are the four sequence lengths of the RFC 3629 well-formed
byte sequence table.
-/
inductive Utf8Valid : List Nat → Prop where
  | nil : Utf8Valid []
  | one {b : Nat} {l : List Nat} :
      b < 0x80 → Utf8Valid l → Utf8Valid (b :: l)
  | two {b c : Nat} {l : List Nat} :
      0xC2 ≤ b → b ≤ 0xDF → isCont c → Utf8Valid l → Utf8Valid (b :: c :: l)
  | three {b c d : Nat} {l : List Nat} :
      0xE0 ≤ b → b ≤ 0xEF → lead3Ok b c → isCont d → Utf8Valid l →
      Utf8Valid (b :: c :: d :: l)
  | four {b c d e : Nat} {l : List Nat} :
      0xF0 ≤ b → b ≤ 0xF4 → lead4Ok b c → isCont d → isCont e → Utf8Valid l →
      Utf8Valid (b :: c :: d :: e :: l)

/- Text made from a list of code points. -/
def cpStr (cps : List Nat) : String :=
  String.mk (cps.map Char.ofNat)

/- An inbound MQTT message as the transport delivers it to the callback:
a topic string and a raw byte payload. -/
structure Msg where
  topic : String
  payload : List Nat

/-
The module level onMessage callback: prints the topic, a colon and the
decoded payload as one line.  Decoding is the strict default decode of
the payload bytes; when it raises, no line is printed and the exception
propagates to the caller of the callback, modelled as none.
-/
def onMessage (m : Msg) : Option String :=
  (utf8Decode m.payload).map fun cps => m.topic ++ ":" ++ cpStr cps

/-
Subscriber state, as set up by the constructor of class MQTTSubscribe:
configuration fields plus the registered message callback (the
constructor assigns onMessage to the client).
-/
structure MQTTSubscribe where
  on_message : Msg → Option String
  host : String
  port : Nat
  timeout : Nat
  topic : String
  message : String
  qos : Nat

def MQTTSubscribe.init (cfg : JSON_Parser) : MQTTSubscribe :=
  { on_message := onMessage
    host := cfg.mqtt_host
    port := cfg.mqtt_port
    timeout := cfg.mqtt_timeout
    topic := cfg.msg_topic
    message := cfg.msg_payload
    qos := cfg.mqtt_qos }

/-
MQTTSubscribe.connect: same structure as MQTTPublish.connect with the SUB
log tag.
-/
def MQTTSubscribe.connect (self : MQTTSubscribe) (rc : Nat) : List Event :=
  Event.transportConnect self.host self.port self.timeout ::
    (if rc ≠ 0 then
      [Event.logError "SUB : Could not connect to client!", Event.sysExit (-1)]
    else
      [Event.logInfo "SUB : Connection to client established!"])

/-
MQTTSubscribe.subscribe: one transport subscribe call carrying only the
configured topic; the source passes no QoS argument, recorded here as a
qosArg of none (the transport then applies its own default).
-/
def MQTTSubscribe.subscribe (self : MQTTSubscribe) : List Event :=
  [Event.transportSubscribe self.topic none]

/-
Dispatch of the blocking receive loop: the transport hands each inbound
message to the registered callback in order.  A callback that returns a
line produces one print event; a callback that raises aborts the loop at
that message, and the flag in the result records that an exception left
the receive loop through a callback.
-/
def loopForeverDispatch (handler : Msg → Option String) :
    List Msg → List Event × Bool
  | [] => ([], false)
  | m :: rest =>
    match handler m with
    | some line =>
      let r := loopForeverDispatch handler rest
      (Event.printLine line :: r.1, r.2)
    | none => ([], true)

/-
MQTTSubscribe.run: inside a try block, print the exit prompt and the log
directory, log an info line, then block in the transport receive loop,
which dispatches inbound messages to the registered callback.  The
receive loop only ends by an exception (a fault, a callback raise or an
external interrupt), and the except block then logs a warning and
disconnects; after the except block the method returns, so no further
messages are dispatched.  The msgs argument lists the messages the
transport delivers before the loop is interrupted.
-/
def MQTTSubscribe.run (self : MQTTSubscribe) (logdir : String) (msgs : List Msg) :
    List Event :=
  [Event.printLine "Press CTRL+C to exit....",
   Event.printLine logdir,
   Event.logInfo "SUB : Subscriber waiting for packets"] ++
  (loopForeverDispatch self.on_message msgs).1 ++
  [Event.logWarning "SUB : Disconnecting from broker!",
   Event.transportDisconnect,
   Event.logInfo "SUB : Disconnected from network!"]

/-
MQTTSubscribe.start_loop: connect, subscribe, run.  A nonzero connect
result exits the process inside connect, so subscribe and run are never
entered in that case.
-/
def MQTTSubscribe.start_loop (self : MQTTSubscribe) (rc : Nat) (logdir : String)
    (msgs : List Msg) : List Event :=
  self.connect rc ++
    (if rc ≠ 0 then [] else self.subscribe ++ self.run logdir msgs)

/- Sample configuration and role instances used by concrete witnesses. -/
def sampleCfg : JSON_Parser :=
  { mqtt_host := "localhost"
    mqtt_port := 1883
    mqtt_timeout := 60
    msg_topic := "test/topic"
    msg_payload := "hello"
    mqtt_qos := 0
    tlsparams_cacerts := "ca.crt"
    tlsparams_certfile := "client.crt"
    tlsparams_keyfile := "client.key"
    logging_logdir := "logs" }

def samplePub : MQTTPublish := MQTTPublish.init sampleCfg 0

def sampleTLS : MQTTPublish_TLS := MQTTPublish_TLS.init sampleCfg 0

def sampleSub : MQTTSubscribe := MQTTSubscribe.init sampleCfg

/-- C4: the TLS publisher connect always targets port 8883 for every
configured port value; the configured port field is read at construction
but does not influence the connection target. -/
theorem tls_connect_port_fixed (cfg : JSON_Parser) (now : Nat) (rc : Nat)
    (self : MQTTPublish_TLS) (p1 p2 : Nat) :
    (MQTTPublish_TLS.init cfg now).port = cfg.mqtt_port ∧
    ((MQTTPublish_TLS.init cfg now).connect rc).head? =
      some (Event.transportConnect cfg.mqtt_host 8883 cfg.mqtt_timeout) ∧
    MQTTPublish_TLS.connect { self with port := p1 } rc =
      MQTTPublish_TLS.connect { self with port := p2 } rc :=
  ⟨rfl, rfl, rfl⟩

/-- C6: the TLS publisher start_loop invokes tls_config before connect,
unconditionally: the trace always begins with the TLS material being
installed and insecure mode enabled, and only then the transport connect
call. -/
theorem tls_start_loop_config_before_connect (self : MQTTPublish_TLS) (rc : Nat)
    (tolerant : Bool) (pubFault : Nat → Bool) (fuel t : Nat) :
    ∃ rest, self.start_loop rc tolerant pubFault fuel t =
      Event.tlsSet self.ca_certs self.cafile self.keyfile ::
      Event.tlsInsecureSet true ::
      Event.transportConnect self.host 8883 self.timeout :: rest := by
  refine ⟨(if rc ≠ 0 then
      [Event.logError "PUB : Could not connect to client!", Event.sysExit (-1)]
    else
      [Event.logInfo "PUB : Connection to client established!"]) ++
      (if rc ≠ 0 then [] else (self.run tolerant pubFault fuel t 0 true).1), ?_⟩
  simp [MQTTPublish_TLS.start_loop, MQTTPublish_TLS.tls_config, MQTTPublish_TLS.connect]

/-- C7: the subscriber subscribe call carries only the configured topic
and no explicit QoS argument; the qos field loaded at construction is
never applied to the subscription call, whatever its value. -/
theorem subscribe_topic_only (cfg : JSON_Parser) (self : MQTTSubscribe) (q1 q2 : Nat) :
    (MQTTSubscribe.init cfg).qos = cfg.mqtt_qos ∧
    (MQTTSubscribe.init cfg).subscribe = [Event.transportSubscribe cfg.msg_topic none] ∧
    MQTTSubscribe.subscribe { self with qos := q1 } =
      MQTTSubscribe.subscribe { self with qos := q2 } :=
  ⟨rfl, rfl, rfl⟩


/- Decoding succeeds on every well-formed UTF-8 byte sequence, for any
fuel at least the input length. -/
theorem utf8DecodeGo_isSome_of_valid :
    ∀ {l : List Nat}, Utf8Valid l → ∀ fuel, l.length ≤ fuel →
      (utf8DecodeGo fuel l).isSome = true := by
  intro l hv
  induction hv with
  | nil => intro fuel _; simp [utf8DecodeGo]
  | one hb _ ih =>
    intro fuel hf
    cases fuel with
    | zero => simp at hf
    | succ f =>
      obtain ⟨cps, hcps⟩ := Option.isSome_iff_exists.mp (ih f (by simp at hf; omega))
      simp [utf8DecodeGo, utf8Step, hb, hcps]
  | @two b c l2 hb1 hb2 hc _ ih =>
    intro fuel hf
    cases fuel with
    | zero => simp at hf
    | succ f =>
      obtain ⟨cps, hcps⟩ := Option.isSome_iff_exists.mp (ih f (by simp at hf; omega))
      have hnb : ¬ b < 0x80 := by omega
      simp [utf8DecodeGo, utf8Step, hnb, hb1, hb2, hc, hcps]
  | @three b c d l3 hb1 hb2 hl hc _ ih =>
    intro fuel hf
    cases fuel with
    | zero => simp at hf
    | succ f =>
      obtain ⟨cps, hcps⟩ := Option.isSome_iff_exists.mp (ih f (by simp at hf; omega))
      have hnb : ¬ b < 0x80 := by omega
      have hn2 : ¬ (0xC2 ≤ b ∧ b ≤ 0xDF) := by omega
      simp [utf8DecodeGo, utf8Step, hnb, hn2, hb1, hb2, hl, hc, hcps]
  | @four b c d e l4 hb1 hb2 hl hc hd _ ih =>
    intro fuel hf
    cases fuel with
    | zero => simp at hf
    | succ f =>
      obtain ⟨cps, hcps⟩ := Option.isSome_iff_exists.mp (ih f (by simp at hf; omega))
      have hnb : ¬ b < 0x80 := by omega
      have hn2 : ¬ (0xC2 ≤ b ∧ b ≤ 0xDF) := by omega
      have hn3 : ¬ (0xE0 ≤ b ∧ b ≤ 0xEF) := by omega
      simp [utf8DecodeGo, utf8Step, hnb, hn2, hn3, hb1, hb2, hl, hc, hd, hcps]

theorem utf8Decode_isSome_of_valid {l : List Nat} (hv : Utf8Valid l) :
    (utf8Decode l).isSome = true :=
  utf8DecodeGo_isSome_of_valid hv l.length (Nat.le_refl _)

/-- C10: the message callback decodes the payload with the strict default
decoding: every payload that is a well-formed UTF-8 byte sequence yields
exactly one printed line of the form topic, colon, decoded text, while
the byte 0xFF payload makes the callback raise a decoding error instead
of printing. -/
theorem onMessage_strict_decode :
    (∀ m : Msg, Utf8Valid m.payload →
      ∃ cps, utf8Decode m.payload = some cps ∧
        onMessage m = some (m.topic ++ ":" ++ cpStr cps)) ∧
    onMessage (Msg.mk "topic" [0xFF]) = none := by
  constructor
  · intro m hv
    obtain ⟨cps, hcps⟩ := Option.isSome_iff_exists.mp (utf8Decode_isSome_of_valid hv)
    exact ⟨cps, hcps, by simp [onMessage, hcps]⟩
  · rfl

/-- C10 witness: the two byte payload of the letters h and i is
well-formed, decodes, and the callback prints one line. -/
theorem onMessage_strict_decode_witness :
    Utf8Valid [104, 105] ∧
    ∃ cps, utf8Decode [104, 105] = some cps ∧
      onMessage (Msg.mk "a" [104, 105]) = some ("a" ++ ":" ++ cpStr cps) := by
  have hv : Utf8Valid [104, 105] :=
    Utf8Valid.one (by omega) (Utf8Valid.one (by omega) Utf8Valid.nil)
  exact ⟨hv, onMessage_strict_decode.1 (Msg.mk "a" [104, 105]) hv⟩

/- The receive loop dispatch prints one line per message when every
payload decodes. -/
theorem loopForeverDispatch_all_decode (msgs : List Msg)
    (h : ∀ m ∈ msgs, (utf8Decode m.payload).isSome = true) :
    loopForeverDispatch onMessage msgs =
      (msgs.map (fun m =>
        Event.printLine (m.topic ++ ":" ++ cpStr ((utf8Decode m.payload).getD []))),
       false) := by
  induction msgs with
  | nil => rfl
  | cons m rest ih =>
    obtain ⟨cps, hcps⟩ := Option.isSome_iff_exists.mp (h m (by simp))
    have hrest := ih (fun x hx => h x (by simp [hx]))
    simp [loopForeverDispatch, onMessage, hcps, hrest]

/-- C5: for every sequence of N inbound messages the transport delivers,
the registered callback is invoked exactly N times, each invocation
printing exactly one line formatted as topic, colon, payload decoded as
text; the subscriber run trace contains exactly these N lines between the
preamble and the shutdown events. -/
theorem subscriber_prints_each_message (cfg : JSON_Parser) (logdir : String)
    (msgs : List Msg) (h : ∀ m ∈ msgs, (utf8Decode m.payload).isSome = true) :
    (loopForeverDispatch (MQTTSubscribe.init cfg).on_message msgs).1.length =
      msgs.length ∧
    (MQTTSubscribe.init cfg).run logdir msgs =
      [Event.printLine "Press CTRL+C to exit....",
       Event.printLine logdir,
       Event.logInfo "SUB : Subscriber waiting for packets"] ++
      (msgs.map fun m =>
        Event.printLine (m.topic ++ ":" ++ cpStr ((utf8Decode m.payload).getD []))) ++
      [Event.logWarning "SUB : Disconnecting from broker!",
       Event.transportDisconnect,
       Event.logInfo "SUB : Disconnected from network!"] := by
  have hd : (MQTTSubscribe.init cfg).on_message = onMessage := rfl
  rw [MQTTSubscribe.run, hd, loopForeverDispatch_all_decode msgs h]
  simp

/-- C5 witness: two concrete inbound messages produce exactly two lines. -/
theorem subscriber_prints_each_message_witness :
    (∀ m ∈ [Msg.mk "t" [104, 105], Msg.mk "u" [33]],
      (utf8Decode m.payload).isSome = true) ∧
    (loopForeverDispatch (MQTTSubscribe.init sampleCfg).on_message
        [Msg.mk "t" [104, 105], Msg.mk "u" [33]]).1.length = 2 :=
  ⟨by decide,
   (subscriber_prints_each_message sampleCfg "logs"
      [Msg.mk "t" [104, 105], Msg.mk "u" [33]] (by decide)).1⟩

/- Closing an open connection never raises. -/
theorem MQTTPublish_disconnect_conn (tolerant : Bool) :
    MQTTPublish.disconnect true tolerant =
      ([Event.transportDisconnect, Event.logInfo "PUB : Disconnected from network!"],
       false, false) := rfl

/- A tolerant transport never raises on disconnect, open or closed. -/
theorem MQTTPublish_disconnect_tolerant (conn : Bool) :
    MQTTPublish.disconnect conn true =
      ([Event.transportDisconnect, Event.logInfo "PUB : Disconnected from network!"],
       false, false) := by
  cases conn <;> rfl

/- One fault-free iteration of the publish loop that does not reach the
time budget: the iteration events followed by the rest of the loop. -/
theorem runPub_noFault_step (self : MQTTPublish) (tolerant : Bool) (f t i : Nat)
    (h : ¬ t + 5 - self.start_time ≥ 200) :
    self.run tolerant (fun _ => false) (f + 1) t i true =
      ([Event.printLine "Press CTRL+C to exit....",
        Event.logDebug "PUB : Running the publish loop",
        Event.transportPublish self.topic self.message self.qos,
        Event.logDebug "PUB : Published message to network",
        Event.sleep 5,
        Event.timeCheck (t + 5 - self.start_time)] ++
        (self.run tolerant (fun _ => false) f (t + 5) (i + 1) true).1,
       (self.run tolerant (fun _ => false) f (t + 5) (i + 1) true).2) := by
  simp [MQTTPublish.run, MQTTPublish.publish, h]

/- The final fault-free iteration of the publish loop: the elapsed time
reaches the budget, so the loop warns, disconnects and breaks. -/
theorem runPub_noFault_break (self : MQTTPublish) (tolerant : Bool) (f t i : Nat)
    (h : t + 5 - self.start_time ≥ 200) :
    self.run tolerant (fun _ => false) (f + 1) t i true =
      ([Event.printLine "Press CTRL+C to exit....",
        Event.logDebug "PUB : Running the publish loop",
        Event.transportPublish self.topic self.message self.qos,
        Event.logDebug "PUB : Published message to network",
        Event.sleep 5,
        Event.timeCheck (t + 5 - self.start_time),
        Event.logWarning "PUB : Disconnecting from broker!",
        Event.transportDisconnect,
        Event.logInfo "PUB : Disconnected from network!"],
       RunOutcome.normal) := by
  simp [MQTTPublish.run, MQTTPublish.publish, MQTTPublish_disconnect_conn, h]

/- Counting lemma for the fault-free publish loop on the simulated clock:
entering iteration i (i below 40) at time start plus 5 i with enough fuel
left, the loop publishes and checks the clock exactly 40 - i more times,
ends normally, and the final clock check reads exactly 200. -/
theorem runPub_noFault_count (self : MQTTPublish) (tolerant : Bool) :
    ∀ fuel i, i < 40 → 40 - i ≤ fuel →
      ((self.run tolerant (fun _ => false) fuel (self.start_time + 5 * i) i true).1.countP
          Event.isPublish = 40 - i) ∧
      ((self.run tolerant (fun _ => false) fuel (self.start_time + 5 * i) i true).1.countP
          Event.isTimeCheck = 40 - i) ∧
      (self.run tolerant (fun _ => false) fuel (self.start_time + 5 * i) i true).2 =
        RunOutcome.normal ∧
      Event.timeCheck 200 ∈
        (self.run tolerant (fun _ => false) fuel (self.start_time + 5 * i) i true).1 := by
  intro fuel
  induction fuel with
  | zero => intro i h1 h2; omega
  | succ f ih =>
    intro i h1 h2
    by_cases h39 : i = 39
    · subst h39
      have ht : self.start_time + 5 * 39 + 5 - self.start_time ≥ 200 := by omega
      have ht2 : self.start_time + 5 * 39 + 5 - self.start_time = 200 := by omega
      rw [runPub_noFault_break self tolerant f _ 39 ht, ht2]
      refine ⟨by simp [Event.isPublish, Event.isTimeCheck], by
        simp [Event.isPublish, Event.isTimeCheck], rfl, by simp⟩
    · have ht : ¬ self.start_time + 5 * i + 5 - self.start_time ≥ 200 := by omega
      rw [runPub_noFault_step self tolerant f _ i ht]
      have harg : self.start_time + 5 * i + 5 = self.start_time + 5 * (i + 1) := by ring
      rw [harg]
      obtain ⟨hc1, hc2, ho, hm⟩ := ih (i + 1) (by omega) (by omega)
      refine ⟨?_, ?_, ho, ?_⟩
      · simp [List.countP_append, hc1, Event.isPublish, Event.isTimeCheck]
        omega
      · simp [List.countP_append, hc2, Event.isPublish, Event.isTimeCheck]
        omega
      · simp [hm]

/-- C3: under the simulated clock with no faults, the publish loop entered
at the recorded start time publishes exactly 40 times, exactly the floor
of 200 over 5, then self-terminates normally; the elapsed-time comparison
is not strict, so the loop terminates on the iteration whose clock check
reads exactly 200 seconds, which is also the final of its 40 checks. -/
theorem run_publishes_forty_times (self : MQTTPublish) (tolerant : Bool) (fuel : Nat)
    (h : 40 ≤ fuel) :
    ((self.run tolerant (fun _ => false) fuel self.start_time 0 true).1.countP
        Event.isPublish = 40) ∧
    ((self.run tolerant (fun _ => false) fuel self.start_time 0 true).1.countP
        Event.isTimeCheck = 40) ∧
    (self.run tolerant (fun _ => false) fuel self.start_time 0 true).2 =
      RunOutcome.normal ∧
    Event.timeCheck 200 ∈
      (self.run tolerant (fun _ => false) fuel self.start_time 0 true).1 := by
  have h0 := runPub_noFault_count self tolerant fuel 0 (by omega) (by omega)
  simpa using h0

/-- C3 witness: the sample publisher with fuel 40 publishes 40 times. -/
theorem run_publishes_forty_times_witness :
    40 ≤ 40 ∧
    ((samplePub.run true (fun _ => false) 40 samplePub.start_time 0 true).1.countP
        Event.isPublish = 40) :=
  ⟨by decide, (run_publishes_forty_times samplePub true 40 (by decide)).1⟩

/- One fault-free iteration of the TLS publish loop short of the budget. -/
theorem runPubTLS_noFault_step (self : MQTTPublish_TLS) (tolerant : Bool) (f t i : Nat)
    (h : ¬ t + 5 - self.start_time ≥ 200) :
    self.run tolerant (fun _ => false) (f + 1) t i true =
      ([Event.printLine "Press CTRL+C to exit....",
        Event.logDebug "PUB : Running the publish loop",
        Event.transportPublish self.topic self.message self.qos,
        Event.logDebug "PUB : Published message to network",
        Event.sleep 5,
        Event.timeCheck (t + 5 - self.start_time)] ++
        (self.run tolerant (fun _ => false) f (t + 5) (i + 1) true).1,
       (self.run tolerant (fun _ => false) f (t + 5) (i + 1) true).2) := by
  simp [MQTTPublish_TLS.run, MQTTPublish_TLS.publish, h]

/- The final fault-free iteration of the TLS publish loop. -/
theorem runPubTLS_noFault_break (self : MQTTPublish_TLS) (tolerant : Bool) (f t i : Nat)
    (h : t + 5 - self.start_time ≥ 200) :
    self.run tolerant (fun _ => false) (f + 1) t i true =
      ([Event.printLine "Press CTRL+C to exit....",
        Event.logDebug "PUB : Running the publish loop",
        Event.transportPublish self.topic self.message self.qos,
        Event.logDebug "PUB : Published message to network",
        Event.sleep 5,
        Event.timeCheck (t + 5 - self.start_time),
        Event.logWarning "PUB : Disconnecting from broker!",
        Event.transportDisconnect,
        Event.logInfo "PUB : Disconnected from network!"],
       RunOutcome.normal) := by
  simp [MQTTPublish_TLS.run, MQTTPublish_TLS.publish, MQTTPublish_disconnect_conn, h]

/-- C9: both publish loop variants, run without faults, always perform one
publish and one five second sleep before the first elapsed-time check,
whatever the entry time; in particular with the 200 second budget already
exhausted at entry, exactly one message is still published and one sleep
still happens before the loop breaks normally. -/
theorem run_always_publishes_once_first (selfP : MQTTPublish) (selfT : MQTTPublish_TLS)
    (tolerant : Bool) (t fuel : Nat) (h : 1 ≤ fuel) :
    (∃ rest, (selfP.run tolerant (fun _ => false) fuel t 0 true).1 =
      Event.printLine "Press CTRL+C to exit...." ::
      Event.logDebug "PUB : Running the publish loop" ::
      Event.transportPublish selfP.topic selfP.message selfP.qos ::
      Event.logDebug "PUB : Published message to network" ::
      Event.sleep 5 ::
      Event.timeCheck (t + 5 - selfP.start_time) :: rest) ∧
    (selfP.start_time + 200 ≤ t →
      (selfP.run tolerant (fun _ => false) fuel t 0 true).1.countP Event.isPublish = 1 ∧
      (selfP.run tolerant (fun _ => false) fuel t 0 true).1.countP Event.isSleep = 1 ∧
      (selfP.run tolerant (fun _ => false) fuel t 0 true).2 = RunOutcome.normal) ∧
    (∃ rest, (selfT.run tolerant (fun _ => false) fuel t 0 true).1 =
      Event.printLine "Press CTRL+C to exit...." ::
      Event.logDebug "PUB : Running the publish loop" ::
      Event.transportPublish selfT.topic selfT.message selfT.qos ::
      Event.logDebug "PUB : Published message to network" ::
      Event.sleep 5 ::
      Event.timeCheck (t + 5 - selfT.start_time) :: rest) ∧
    (selfT.start_time + 200 ≤ t →
      (selfT.run tolerant (fun _ => false) fuel t 0 true).1.countP Event.isPublish = 1 ∧
      (selfT.run tolerant (fun _ => false) fuel t 0 true).1.countP Event.isSleep = 1 ∧
      (selfT.run tolerant (fun _ => false) fuel t 0 true).2 = RunOutcome.normal) := by
  obtain ⟨f, rfl⟩ : ∃ f, fuel = f + 1 := ⟨fuel - 1, by omega⟩
  refine ⟨?_, ?_, ?_, ?_⟩
  · by_cases hc : t + 5 - selfP.start_time ≥ 200
    · rw [runPub_noFault_break selfP tolerant f t 0 hc]
      exact ⟨_, rfl⟩
    · rw [runPub_noFault_step selfP tolerant f t 0 hc]
      exact ⟨_, rfl⟩
  · intro hb
    have hc : t + 5 - selfP.start_time ≥ 200 := by omega
    rw [runPub_noFault_break selfP tolerant f t 0 hc]
    exact ⟨by simp [Event.isPublish], by simp [Event.isSleep], rfl⟩
  · by_cases hc : t + 5 - selfT.start_time ≥ 200
    · rw [runPubTLS_noFault_break selfT tolerant f t 0 hc]
      exact ⟨_, rfl⟩
    · rw [runPubTLS_noFault_step selfT tolerant f t 0 hc]
      exact ⟨_, rfl⟩
  · intro hb
    have hc : t + 5 - selfT.start_time ≥ 200 := by omega
    rw [runPubTLS_noFault_break selfT tolerant f t 0 hc]
    exact ⟨by simp [Event.isPublish], by simp [Event.isSleep], rfl⟩

/-- C9 witness: the sample publisher entered at time 200 with its budget
already exhausted still publishes exactly once. -/
theorem run_always_publishes_once_first_witness :
    (1 ≤ 1 ∧ samplePub.start_time + 200 ≤ 200) ∧
    (samplePub.run true (fun _ => false) 1 200 0 true).1.countP Event.isPublish = 1 :=
  ⟨⟨by decide, by decide⟩,
   ((run_always_publishes_once_first samplePub sampleTLS true 200 1
      (by decide)).2.1 (by decide)).1⟩

/-- C8 counterexample: with a transport that raises on a duplicate close,
a publish fault on iteration 0 triggers the warn-and-disconnect handler
(one transport disconnect happens), the loop then continues, and the next
fault on iteration 1 makes the cleanup disconnect raise inside the except
block, so the fault escapes the run loop unhandled. -/
theorem run_intolerant_unhandled_example :
    RunOutcome.isUnhandledB
        (samplePub.run false (fun i => i < 2) 3 0 0 true).2 = true ∧
    (samplePub.run false (fun i => i < 2) 3 0 0 true).1.countP
        Event.isDisconnect = 1 ∧
    (samplePub.run false (fun i => i < 2) 3 0 0 true).1.countP
        Event.isWarning = 2 :=
  ⟨rfl, rfl, rfl⟩

/-- C8 amended: provided the transport disconnect tolerates duplicate
close calls, no fault ever escapes the publish run loop unhandled: in
particular a Disconnect performed after a fault-triggered disconnect does
not raise out of the loop, whatever the fault pattern, fuel, entry time,
iteration index and connection state. -/
theorem runPub_tolerant_never_unhandled (self : MQTTPublish) (pubFault : Nat → Bool) :
    ∀ fuel t i conn,
      RunOutcome.isUnhandledB (self.run true pubFault fuel t i conn).2 = false := by
  intro fuel
  induction fuel with
  | zero => intro t i conn; rfl
  | succ f ih =>
    intro t i conn
    by_cases hf : pubFault i
    · simp [MQTTPublish.run, MQTTPublish_disconnect_tolerant, hf, ih]
    · by_cases hc : t + 5 - self.start_time ≥ 200
      · simp [MQTTPublish.run, MQTTPublish.publish, MQTTPublish_disconnect_tolerant,
          RunOutcome.isUnhandledB, hf, hc, ih]
      · simp [MQTTPublish.run, MQTTPublish.publish, MQTTPublish_disconnect_tolerant,
          hf, hc, ih]

/-- C2: evidence at the failing input for the publisher run loop: with a
publish fault on the first iteration and a tolerant transport, the
handler logs the warning and disconnects, but the loop does not exit; the
trace continues with a full second iteration that publishes again, and
the loop is still running when the fuel ends. -/
theorem run_fault_does_not_break_loop :
    samplePub.run true (fun i => i == 0) 2 0 0 true =
      ([Event.printLine "Press CTRL+C to exit....",
        Event.logDebug "PUB : Running the publish loop",
        Event.logWarning "PUB : Disconnecting from broker!",
        Event.transportDisconnect,
        Event.logInfo "PUB : Disconnected from network!",
        Event.printLine "Press CTRL+C to exit....",
        Event.logDebug "PUB : Running the publish loop",
        Event.transportPublish "test/topic" "hello" 0,
        Event.logDebug "PUB : Published message to network",
        Event.sleep 5,
        Event.timeCheck 5],
       RunOutcome.fuelOut) ∧
    ((samplePub.run true (fun i => i == 0) 2 0 0 true).1.drop 5).countP
        Event.isPublish = 1 :=
  ⟨rfl, rfl⟩

/-- C1: for every connect call of the plain publisher and of the
subscriber, a zero transport result logs exactly one informational event,
no error and no process exit; a nonzero result logs exactly one error
event, no informational event, and exits the process with the nonzero
status -1, with the whole start_loop trace reduced to the connect trace,
so no publish, subscribe or disconnect call ever occurs. -/
theorem connect_result_logging (selfP : MQTTPublish) (selfS : MQTTSubscribe)
    (rc : Nat) (tolerant : Bool) (pubFault : Nat → Bool) (fuel t : Nat)
    (logdir : String) (msgs : List Msg) :
    (rc = 0 →
      (selfP.connect rc).countP Event.isInfo = 1 ∧
      (selfP.connect rc).countP Event.isError = 0 ∧
      (selfP.connect rc).countP Event.isExit = 0 ∧
      (selfS.connect rc).countP Event.isInfo = 1 ∧
      (selfS.connect rc).countP Event.isError = 0 ∧
      (selfS.connect rc).countP Event.isExit = 0) ∧
    (rc ≠ 0 →
      (selfP.connect rc).countP Event.isError = 1 ∧
      (selfP.connect rc).countP Event.isInfo = 0 ∧
      Event.sysExit (-1) ∈ selfP.connect rc ∧
      selfP.start_loop rc tolerant pubFault fuel t = selfP.connect rc ∧
      (selfP.start_loop rc tolerant pubFault fuel t).countP Event.isPublish = 0 ∧
      (selfP.start_loop rc tolerant pubFault fuel t).countP Event.isDisconnect = 0 ∧
      (selfS.connect rc).countP Event.isError = 1 ∧
      (selfS.connect rc).countP Event.isInfo = 0 ∧
      Event.sysExit (-1) ∈ selfS.connect rc ∧
      selfS.start_loop rc logdir msgs = selfS.connect rc ∧
      (selfS.start_loop rc logdir msgs).countP Event.isSubscribeCall = 0 ∧
      (selfS.start_loop rc logdir msgs).countP Event.isDisconnect = 0) ∧
    (-1 : Int) ≠ 0 := by
  refine ⟨?_, ?_, by decide⟩
  · intro h
    subst h
    simp [MQTTPublish.connect, MQTTSubscribe.connect,
      Event.isInfo, Event.isError, Event.isExit]
  · intro h
    simp [MQTTPublish.connect, MQTTSubscribe.connect,
      MQTTPublish.start_loop, MQTTSubscribe.start_loop, h,
      Event.isInfo, Event.isError, Event.isExit, Event.isPublish,
      Event.isDisconnect, Event.isSubscribeCall]

/-- C1 witness: the sample publisher and subscriber at result code 0 and
at result code 1. -/
theorem connect_result_logging_witness :
    ((0 : Nat) = 0 ∧ (samplePub.connect 0).countP Event.isInfo = 1) ∧
    ((1 : Nat) ≠ 0 ∧ (samplePub.connect 1).countP Event.isError = 1) :=
  ⟨⟨rfl, ((connect_result_logging samplePub sampleSub 0 true (fun _ => false)
      1 0 "logs" []).1 rfl).1⟩,
   ⟨by decide, ((connect_result_logging samplePub sampleSub 1 true (fun _ => false)
      1 0 "logs" []).2.1 (by decide)).1⟩⟩
